import Mathlib

/-!
Shallow embedding of the job-description extraction/enhancement service
(package `my_jd_extraction_api`): the Pydantic schema (`schemas/jd_schema.py`),
the structured-response requester (`services/gpt_service.py`), the file-parser
dispatch (`services/file_parser.py`), the extraction and enhancement
orchestrators (`services/jd_extraction.py`, `services/jd_enhancement.py`) and
the Enhance endpoint (`api/enhancement.py`), with theorems checking the spec's
claims against these definitions.

Python data is modelled by `PyVal` (JSON-style values plus a marker for an
un-awaited coroutine object); a raised exception by `PyError` (class name plus
the string `str(e)` renders to).  External effects — the document readers and
the model transport — are parameters: an orchestrator takes the outcome of
each external call as an argument, exactly like the mocked collaborators the
spec's test scenarios posit.
-/

/-- A Python runtime value as used by this service: JSON-shaped data
(`None`/bool/int/str/list/dict) plus `coroutine`, the object produced by
calling an `async def` function without `await` (its body has not run). -/
inductive PyVal where
  | none
  | bool (b : Bool)
  | int (n : Int)
  | str (s : String)
  | list (xs : List PyVal)
  | dict (xs : List (String × PyVal))
  | coroutine (fn : String)

/-- `d[k]` lookup on a dict; `Option.none` when the key is absent or the value
is not a dict.  Mirrors Python `d.get(k)` / the `k in d` membership test
(membership holds iff the result is `some _`). -/
def PyVal.lookup : PyVal → String → Option PyVal
  | .dict xs, k => xs.lookup k
  | _, _ => Option.none

/-- Replace the binding of `k` in an association list (append when absent),
mirroring Python dict item assignment `d[k] = v`. -/
def assocSet (k : String) (v : PyVal) : List (String × PyVal) → List (String × PyVal)
  | [] => [(k, v)]
  | (k', v') :: rest => if k' = k then (k, v) :: rest else (k', v') :: assocSet k v rest

/-- `d[k] = v` on a dict value; identity on non-dicts (the modelled code only
assigns into dicts produced by schema validation, so that branch never runs). -/
def PyVal.setKey : PyVal → String → PyVal → PyVal
  | .dict xs, k, v => .dict (assocSet k v xs)
  | other, _, _ => other

/-- `d[k1][k2] = v`: fetch the inner dict at `k1` and assign `k2` in it.
In Python a missing `k1` raises `KeyError`; the modelled call sites only ever
apply this to validated responses where `k1` is always present, so the
missing-key branch (returning `d` unchanged) is unreachable there. -/
def PyVal.setPath (d : PyVal) (k1 k2 : String) (v : PyVal) : PyVal :=
  match d.lookup k1 with
  | some inner => d.setKey k1 (inner.setKey k2 v)
  | Option.none => d

/-- Python truthiness test `not x` for the values this service handles:
`None`, `False`, `0`, empty strings and empty containers are falsy. -/
def PyVal.falsy : PyVal → Bool
  | .none => true
  | .bool b => !b
  | .int n => n == 0
  | .str s => s.isEmpty
  | .list xs => xs.isEmpty
  | .dict xs => xs.isEmpty
  | .coroutine _ => false

/-- A raised Python exception: the class name and the message `str(e)`
returns.  The repository defines no exception classes of its own; the spec's
error taxonomy names (`SchemaValidationError`, `ModelRequestError`, ...) are
its labels for exceptions distinguished here by `cls`. -/
structure PyError where
  cls : String
  msg : String
deriving Repr, DecidableEq

/-- `pat` occurs as a contiguous run within the character list. -/
def hasSubChars (pat : List Char) : List Char → Bool
  | [] => pat.isEmpty
  | c :: rest => List.isPrefixOf pat (c :: rest) || hasSubChars pat rest

/-- Python's substring test `pat in s`. -/
def containsSubstr (s pat : String) : Bool := hasSubChars pat.data s.data

example : containsSubstr "GPT extraction failed: bool_parsing at x" "bool_parsing" = true := by decide
example : containsSubstr "timeout talking to model" "bool_parsing" = false := by decide

/-! ## The Pydantic schema (`schemas/jd_schema.py`)

Each Pydantic model becomes a Lean structure holding validated data; required
fields are plain types, `Optional[T] = None` fields are `Option T`, list
fields with `default_factory=list` are `List`, and `skills_priority`'s
`Dict[str, List[str]]` is an association list. -/

structure BasicJobInfo where
  job_title : String
  job_code : Option String
  job_level : Option String
  department : Option String
  job_category : Option String

structure JobPostingMetadata where
  contract_duration : Option String
  time_commitment : Option String

structure DetailedRoleDescription where
  job_summary : String
  daily_tasks : List String
  performance_indicators : List String
  decision_making_authority : Option String
  stakeholder_interactions : List String

structure RequirementsBreakdown where
  required_qualifications : List String
  preferred_qualifications : List String
  mandatory_certifications : List String
  legal_eligibility : Option String
  background_checks : Option String
  clearance_level : Option String

structure SkillsClassification where
  hard_skills : List String
  soft_skills : List String
  domain_expertise : List String
  methodologies : List String
  languages : List String
  skills_priority : List (String × List String)

structure CompensationDetails where
  base_salary : Option String
  bonus_structure : Option String
  equity : Option String
  benefits : List String
  relocation_assistance : Option Bool
  visa_sponsorship : Option Bool

structure WorkEnvironment where
  work_model : Option String
  locations : List String
  travel_requirements : Option String
  shift_type : Option String

structure CareerPathInfo where
  growth_opportunities : Option String
  training_programs : List String
  mentorship : Option String
  succession_planning : Option String
  culture_page_link : Option String
  careers_page_link : Option String

structure JobDescriptionSchema where
  basic_info : BasicJobInfo
  posting_metadata : JobPostingMetadata
  role_description : DetailedRoleDescription
  requirements : RequirementsBreakdown
  skills : SkillsClassification
  compensation : CompensationDetails
  work_environment : WorkEnvironment
  career_path : CareerPathInfo
  original_text : Option String

structure JobDescriptionExtractionResponse where
  extracted_jd : JobDescriptionSchema
  message : String

structure JobDescriptionEnhancementResponse where
  enhanced_jd : JobDescriptionSchema
  message : String

/-! ## `model_dump`: validated records back to Python dicts

Pydantic v2's `model_dump()` emits every declared field in declaration order;
unset `Optional` fields appear with value `None`. -/

def dumpOptStr : Option String → PyVal
  | Option.none => PyVal.none
  | some s => PyVal.str s

def dumpOptBool : Option Bool → PyVal
  | Option.none => PyVal.none
  | some b => PyVal.bool b

def dumpListStr (xs : List String) : PyVal := PyVal.list (xs.map PyVal.str)

def dumpSkillsPriority (m : List (String × List String)) : PyVal :=
  PyVal.dict (m.map fun p => (p.1, dumpListStr p.2))

def BasicJobInfo.model_dump (r : BasicJobInfo) : PyVal :=
  PyVal.dict
    [("job_title", PyVal.str r.job_title),
     ("job_code", dumpOptStr r.job_code),
     ("job_level", dumpOptStr r.job_level),
     ("department", dumpOptStr r.department),
     ("job_category", dumpOptStr r.job_category)]

def JobPostingMetadata.model_dump (r : JobPostingMetadata) : PyVal :=
  PyVal.dict
    [("contract_duration", dumpOptStr r.contract_duration),
     ("time_commitment", dumpOptStr r.time_commitment)]

def DetailedRoleDescription.model_dump (r : DetailedRoleDescription) : PyVal :=
  PyVal.dict
    [("job_summary", PyVal.str r.job_summary),
     ("daily_tasks", dumpListStr r.daily_tasks),
     ("performance_indicators", dumpListStr r.performance_indicators),
     ("decision_making_authority", dumpOptStr r.decision_making_authority),
     ("stakeholder_interactions", dumpListStr r.stakeholder_interactions)]

def RequirementsBreakdown.model_dump (r : RequirementsBreakdown) : PyVal :=
  PyVal.dict
    [("required_qualifications", dumpListStr r.required_qualifications),
     ("preferred_qualifications", dumpListStr r.preferred_qualifications),
     ("mandatory_certifications", dumpListStr r.mandatory_certifications),
     ("legal_eligibility", dumpOptStr r.legal_eligibility),
     ("background_checks", dumpOptStr r.background_checks),
     ("clearance_level", dumpOptStr r.clearance_level)]

def SkillsClassification.model_dump (r : SkillsClassification) : PyVal :=
  PyVal.dict
    [("hard_skills", dumpListStr r.hard_skills),
     ("soft_skills", dumpListStr r.soft_skills),
     ("domain_expertise", dumpListStr r.domain_expertise),
     ("methodologies", dumpListStr r.methodologies),
     ("languages", dumpListStr r.languages),
     ("skills_priority", dumpSkillsPriority r.skills_priority)]

def CompensationDetails.model_dump (r : CompensationDetails) : PyVal :=
  PyVal.dict
    [("base_salary", dumpOptStr r.base_salary),
     ("bonus_structure", dumpOptStr r.bonus_structure),
     ("equity", dumpOptStr r.equity),
     ("benefits", dumpListStr r.benefits),
     ("relocation_assistance", dumpOptBool r.relocation_assistance),
     ("visa_sponsorship", dumpOptBool r.visa_sponsorship)]

def WorkEnvironment.model_dump (r : WorkEnvironment) : PyVal :=
  PyVal.dict
    [("work_model", dumpOptStr r.work_model),
     ("locations", dumpListStr r.locations),
     ("travel_requirements", dumpOptStr r.travel_requirements),
     ("shift_type", dumpOptStr r.shift_type)]

def CareerPathInfo.model_dump (r : CareerPathInfo) : PyVal :=
  PyVal.dict
    [("growth_opportunities", dumpOptStr r.growth_opportunities),
     ("training_programs", dumpListStr r.training_programs),
     ("mentorship", dumpOptStr r.mentorship),
     ("succession_planning", dumpOptStr r.succession_planning),
     ("culture_page_link", dumpOptStr r.culture_page_link),
     ("careers_page_link", dumpOptStr r.careers_page_link)]

def JobDescriptionSchema.model_dump (r : JobDescriptionSchema) : PyVal :=
  PyVal.dict
    [("basic_info", r.basic_info.model_dump),
     ("posting_metadata", r.posting_metadata.model_dump),
     ("role_description", r.role_description.model_dump),
     ("requirements", r.requirements.model_dump),
     ("skills", r.skills.model_dump),
     ("compensation", r.compensation.model_dump),
     ("work_environment", r.work_environment.model_dump),
     ("career_path", r.career_path.model_dump),
     ("original_text", dumpOptStr r.original_text)]

def JobDescriptionExtractionResponse.model_dump (r : JobDescriptionExtractionResponse) : PyVal :=
  PyVal.dict
    [("extracted_jd", r.extracted_jd.model_dump),
     ("message", PyVal.str r.message)]

def JobDescriptionEnhancementResponse.model_dump (r : JobDescriptionEnhancementResponse) : PyVal :=
  PyVal.dict
    [("enhanced_jd", r.enhanced_jd.model_dump),
     ("message", PyVal.str r.message)]

/-! ## `model_validate_json`: Pydantic v2 lax-mode validation

The requester calls `response_schema.model_validate_json(...)` on the model's
reply.  We model the reply after JSON parsing as a `PyVal` and embed the
validation each declared field type performs in Pydantic v2's default (lax)
mode: strings accept only JSON strings; lists accept only JSON arrays;
`Optional` accepts `null`; booleans accept JSON booleans, the integers 0/1 and
the fixed set of recognised boolean-ish strings, anything else failing with a
`bool_parsing`/`bool_type` error.  Errors are the message text the exception
renders to (Pydantic aggregates all field errors; we stop at the first
offending field, which is enough for every claim settled here).  JSON numbers
are modelled as integers; no schema field is float-typed. -/

def validateStr (field : String) : PyVal → Except String String
  | .str s => .ok s
  | _ => .error (field ++ ": Input should be a valid string [type=string_type]")

def validateOptStr (field : String) : PyVal → Except String (Option String)
  | .none => .ok Option.none
  | .str s => .ok (some s)
  | _ => .error (field ++ ": Input should be a valid string [type=string_type]")

/-- Pydantic v2's lax `str -> bool` coercion table (case-insensitive). -/
def str_to_bool (s : String) : Option Bool :=
  let t := s.toLower
  if t = "true" ∨ t = "t" ∨ t = "yes" ∨ t = "y" ∨ t = "on" ∨ t = "1" then some true
  else if t = "false" ∨ t = "f" ∨ t = "no" ∨ t = "n" ∨ t = "off" ∨ t = "0" then some false
  else Option.none

def validateOptBool (field : String) : PyVal → Except String (Option Bool)
  | .none => .ok Option.none
  | .bool b => .ok (some b)
  | .int n =>
      if n = 0 then .ok (some false)
      else if n = 1 then .ok (some true)
      else .error (field ++ ": Input should be a valid boolean, unable to interpret input [type=bool_parsing]")
  | .str s =>
      match str_to_bool s with
      | some b => .ok (some b)
      | Option.none =>
          .error (field ++ ": Input should be a valid boolean, unable to interpret input [type=bool_parsing]")
  | _ => .error (field ++ ": Input should be a valid boolean [type=bool_type]")

def validateStrList (field : String) (xs : List PyVal) : Except String (List String) :=
  match xs with
  | [] => .ok []
  | x :: rest => do
      let s ← validateStr field x
      let tail ← validateStrList field rest
      .ok (s :: tail)

def validateListStr (field : String) : PyVal → Except String (List String)
  | .list xs => validateStrList field xs
  | _ => .error (field ++ ": Input should be a valid list [type=list_type]")

def validatePriorityEntries (field : String) (xs : List (String × PyVal)) :
    Except String (List (String × List String)) :=
  match xs with
  | [] => .ok []
  | (k, x) :: rest => do
      let v ← validateListStr field x
      let tail ← validatePriorityEntries field rest
      .ok ((k, v) :: tail)

def validateSkillsPriority (field : String) : PyVal → Except String (List (String × List String))
  | .dict xs => validatePriorityEntries field xs
  | _ => .error (field ++ ": Input should be a valid dictionary [type=dict_type]")

/-- Look up a field of a JSON object and validate it; absent fields of a
required Pydantic field fail with a `missing` error. -/
def requiredF (fs : List (String × PyVal)) (name : String)
    (val : PyVal → Except String α) : Except String α :=
  match fs.lookup name with
  | some x => val x
  | Option.none => .error (name ++ ": Field required [type=missing]")

/-- Look up a field of a JSON object; absent fields take the declared
default (`None`, `default_factory=list/dict`, or a default submodel). -/
def optionalF (fs : List (String × PyVal)) (name : String) (dflt : α)
    (val : PyVal → Except String α) : Except String α :=
  match fs.lookup name with
  | some x => val x
  | Option.none => .ok dflt

def BasicJobInfo.validate : PyVal → Except String BasicJobInfo
  | .dict fs => do
      let job_title ← requiredF fs "job_title" (validateStr "job_title")
      let job_code ← optionalF fs "job_code" Option.none (validateOptStr "job_code")
      let job_level ← optionalF fs "job_level" Option.none (validateOptStr "job_level")
      let department ← optionalF fs "department" Option.none (validateOptStr "department")
      let job_category ← optionalF fs "job_category" Option.none (validateOptStr "job_category")
      .ok ⟨job_title, job_code, job_level, department, job_category⟩
  | _ => .error "basic_info: Input should be a valid dictionary [type=model_type]"

def JobPostingMetadata.validate : PyVal → Except String JobPostingMetadata
  | .dict fs => do
      let contract_duration ← optionalF fs "contract_duration" Option.none (validateOptStr "contract_duration")
      let time_commitment ← optionalF fs "time_commitment" Option.none (validateOptStr "time_commitment")
      .ok ⟨contract_duration, time_commitment⟩
  | _ => .error "posting_metadata: Input should be a valid dictionary [type=model_type]"

def JobPostingMetadata.default : JobPostingMetadata := ⟨Option.none, Option.none⟩

def DetailedRoleDescription.validate : PyVal → Except String DetailedRoleDescription
  | .dict fs => do
      let job_summary ← requiredF fs "job_summary" (validateStr "job_summary")
      let daily_tasks ← optionalF fs "daily_tasks" [] (validateListStr "daily_tasks")
      let performance_indicators ← optionalF fs "performance_indicators" [] (validateListStr "performance_indicators")
      let dma ← optionalF fs "decision_making_authority" Option.none (validateOptStr "decision_making_authority")
      let stakeholder_interactions ← optionalF fs "stakeholder_interactions" [] (validateListStr "stakeholder_interactions")
      .ok ⟨job_summary, daily_tasks, performance_indicators, dma, stakeholder_interactions⟩
  | _ => .error "role_description: Input should be a valid dictionary [type=model_type]"

def RequirementsBreakdown.validate : PyVal → Except String RequirementsBreakdown
  | .dict fs => do
      let rq ← optionalF fs "required_qualifications" [] (validateListStr "required_qualifications")
      let pq ← optionalF fs "preferred_qualifications" [] (validateListStr "preferred_qualifications")
      let mc ← optionalF fs "mandatory_certifications" [] (validateListStr "mandatory_certifications")
      let le ← optionalF fs "legal_eligibility" Option.none (validateOptStr "legal_eligibility")
      let bc ← optionalF fs "background_checks" Option.none (validateOptStr "background_checks")
      let cl ← optionalF fs "clearance_level" Option.none (validateOptStr "clearance_level")
      .ok ⟨rq, pq, mc, le, bc, cl⟩
  | _ => .error "requirements: Input should be a valid dictionary [type=model_type]"

def RequirementsBreakdown.default : RequirementsBreakdown :=
  ⟨[], [], [], Option.none, Option.none, Option.none⟩

def SkillsClassification.validate : PyVal → Except String SkillsClassification
  | .dict fs => do
      let hard_skills ← optionalF fs "hard_skills" [] (validateListStr "hard_skills")
      let soft_skills ← optionalF fs "soft_skills" [] (validateListStr "soft_skills")
      let domain_expertise ← optionalF fs "domain_expertise" [] (validateListStr "domain_expertise")
      let methodologies ← optionalF fs "methodologies" [] (validateListStr "methodologies")
      let languages ← optionalF fs "languages" [] (validateListStr "languages")
      let skills_priority ← optionalF fs "skills_priority" [] (validateSkillsPriority "skills_priority")
      .ok ⟨hard_skills, soft_skills, domain_expertise, methodologies, languages, skills_priority⟩
  | _ => .error "skills: Input should be a valid dictionary [type=model_type]"

def SkillsClassification.default : SkillsClassification := ⟨[], [], [], [], [], []⟩

def CompensationDetails.validate : PyVal → Except String CompensationDetails
  | .dict fs => do
      let base_salary ← optionalF fs "base_salary" Option.none (validateOptStr "base_salary")
      let bonus_structure ← optionalF fs "bonus_structure" Option.none (validateOptStr "bonus_structure")
      let equity ← optionalF fs "equity" Option.none (validateOptStr "equity")
      let benefits ← optionalF fs "benefits" [] (validateListStr "benefits")
      let relocation_assistance ← optionalF fs "relocation_assistance" Option.none (validateOptBool "relocation_assistance")
      let visa_sponsorship ← optionalF fs "visa_sponsorship" Option.none (validateOptBool "visa_sponsorship")
      .ok ⟨base_salary, bonus_structure, equity, benefits, relocation_assistance, visa_sponsorship⟩
  | _ => .error "compensation: Input should be a valid dictionary [type=model_type]"

def CompensationDetails.default : CompensationDetails :=
  ⟨Option.none, Option.none, Option.none, [], Option.none, Option.none⟩

def WorkEnvironment.validate : PyVal → Except String WorkEnvironment
  | .dict fs => do
      let work_model ← optionalF fs "work_model" Option.none (validateOptStr "work_model")
      let locations ← optionalF fs "locations" [] (validateListStr "locations")
      let travel_requirements ← optionalF fs "travel_requirements" Option.none (validateOptStr "travel_requirements")
      let shift_type ← optionalF fs "shift_type" Option.none (validateOptStr "shift_type")
      .ok ⟨work_model, locations, travel_requirements, shift_type⟩
  | _ => .error "work_environment: Input should be a valid dictionary [type=model_type]"

def WorkEnvironment.default : WorkEnvironment := ⟨Option.none, [], Option.none, Option.none⟩

def CareerPathInfo.validate : PyVal → Except String CareerPathInfo
  | .dict fs => do
      let growth_opportunities ← optionalF fs "growth_opportunities" Option.none (validateOptStr "growth_opportunities")
      let training_programs ← optionalF fs "training_programs" [] (validateListStr "training_programs")
      let mentorship ← optionalF fs "mentorship" Option.none (validateOptStr "mentorship")
      let succession_planning ← optionalF fs "succession_planning" Option.none (validateOptStr "succession_planning")
      let culture_page_link ← optionalF fs "culture_page_link" Option.none (validateOptStr "culture_page_link")
      let careers_page_link ← optionalF fs "careers_page_link" Option.none (validateOptStr "careers_page_link")
      .ok ⟨growth_opportunities, training_programs, mentorship, succession_planning,
           culture_page_link, careers_page_link⟩
  | _ => .error "career_path: Input should be a valid dictionary [type=model_type]"

def CareerPathInfo.default : CareerPathInfo :=
  ⟨Option.none, [], Option.none, Option.none, Option.none, Option.none⟩

def JobDescriptionSchema.validate : PyVal → Except String JobDescriptionSchema
  | .dict fs => do
      let basic_info ← requiredF fs "basic_info" BasicJobInfo.validate
      let posting_metadata ← optionalF fs "posting_metadata" JobPostingMetadata.default JobPostingMetadata.validate
      let role_description ← requiredF fs "role_description" DetailedRoleDescription.validate
      let requirements ← optionalF fs "requirements" RequirementsBreakdown.default RequirementsBreakdown.validate
      let skills ← optionalF fs "skills" SkillsClassification.default SkillsClassification.validate
      let compensation ← optionalF fs "compensation" CompensationDetails.default CompensationDetails.validate
      let work_environment ← optionalF fs "work_environment" WorkEnvironment.default WorkEnvironment.validate
      let career_path ← optionalF fs "career_path" CareerPathInfo.default CareerPathInfo.validate
      let original_text ← optionalF fs "original_text" Option.none (validateOptStr "original_text")
      .ok ⟨basic_info, posting_metadata, role_description, requirements, skills,
           compensation, work_environment, career_path, original_text⟩
  | _ => .error "Input should be a valid dictionary [type=model_type]"

def JobDescriptionExtractionResponse.validate : PyVal → Except String JobDescriptionExtractionResponse
  | .dict fs => do
      let extracted_jd ← requiredF fs "extracted_jd" JobDescriptionSchema.validate
      let message ← optionalF fs "message" "Job description extracted successfully" (validateStr "message")
      .ok ⟨extracted_jd, message⟩
  | _ => .error "Input should be a valid dictionary [type=model_type]"

def JobDescriptionEnhancementResponse.validate : PyVal → Except String JobDescriptionEnhancementResponse
  | .dict fs => do
      let enhanced_jd ← requiredF fs "enhanced_jd" JobDescriptionSchema.validate
      let message ← optionalF fs "message" "Job description enhanced successfully" (validateStr "message")
      .ok ⟨enhanced_jd, message⟩
  | _ => .error "Input should be a valid dictionary [type=model_type]"

/-! ## Structured-response requester (`services/gpt_service.py`, `extract_with_schema`)

The OpenAI transport is an external boundary; one call's outcome is a
`ModelReply`: either the transport raised, or it returned a JSON-object reply
(already JSON-parsed, as `response_format=json_object` guarantees).
`extract_with_schema` validates the reply against the target schema and
returns `model_dump()` of the parsed record; any exception is logged and
re-raised as `Exception("GPT extraction failed: " + str(e))`. -/

inductive ModelReply where
  | transportError (msg : String)
  | reply (json : PyVal)

def extract_with_schema_extraction (reply : ModelReply) : Except PyError PyVal :=
  match reply with
  | .transportError m => .error ⟨"Exception", "GPT extraction failed: " ++ m⟩
  | .reply j =>
      match JobDescriptionExtractionResponse.validate j with
      | .ok r => .ok r.model_dump
      | .error ve => .error ⟨"Exception", "GPT extraction failed: " ++ ve⟩

def extract_with_schema_enhancement (reply : ModelReply) : Except PyError PyVal :=
  match reply with
  | .transportError m => .error ⟨"Exception", "GPT extraction failed: " ++ m⟩
  | .reply j =>
      match JobDescriptionEnhancementResponse.validate j with
      | .ok r => .ok r.model_dump
      | .error ve => .error ⟨"Exception", "GPT extraction failed: " ++ ve⟩

/-! ## Document text extractor (`services/file_parser.py`, `parse_file`)

The PDF/DOCX/OCR readers call third-party libraries on the uploaded buffer;
each reader's outcome for the given buffer is a parameter (`.ok text` or the
exception it raised).  `parse_file` dispatches on the lowercased filename's
suffix and raises `ValueError` — the spec's `UnsupportedFormatError` — for
any other name.  Lowercasing is modelled per character (ASCII, which covers
every filename the claims mention). -/

def lowerStr (s : String) : String := ⟨s.data.map Char.toLower⟩

def strEndsWith (s suffixStr : String) : Bool := List.isSuffixOf suffixStr.data s.data

def parse_file (pdfRead docxRead imageRead : Except PyError String)
    (filename : String) : Except PyError String :=
  if strEndsWith (lowerStr filename) ".pdf" then pdfRead
  else if strEndsWith (lowerStr filename) ".docx" then docxRead
  else if strEndsWith (lowerStr filename) ".png" ∨ strEndsWith (lowerStr filename) ".jpg" ∨
          strEndsWith (lowerStr filename) ".jpeg" ∨ strEndsWith (lowerStr filename) ".gif" then
    imageRead
  else
    .error ⟨"ValueError", "Unsupported file format. Only PDF, DOCX, and image formats are supported."⟩

/-! ## Extraction orchestrator (`services/jd_extraction.py`, `extract_job_description`)

Parses the file, invokes the requester with the extraction prompts, and on
success assigns the raw text into `structured_data["extracted_jd"]["original_text"]`.
Any exception is re-raised as `Exception("Error extracting job description: " + str(e))`.
The second component of the result counts how many requester calls were made,
so that "aborts before any model call" is a statement about this definition. -/

def extract_job_description (pdfRead docxRead imageRead : Except PyError String)
    (modelReply : ModelReply) (filename : String) : Except PyError PyVal × Nat :=
  match parse_file pdfRead docxRead imageRead filename with
  | .error e => (.error ⟨"Exception", "Error extracting job description: " ++ e.msg⟩, 0)
  | .ok text =>
      match extract_with_schema_extraction modelReply with
      | .error e => (.error ⟨"Exception", "Error extracting job description: " ++ e.msg⟩, 1)
      | .ok structured =>
          (.ok (structured.setPath "extracted_jd" "original_text" (PyVal.str text)), 1)

/-! ## Enhancement orchestrator (`services/jd_enhancement.py`)

`enhance_job_description` makes one requester call (`call1`).  On success it
copies `extracted_jd["original_text"]`, when that key is present, into
`enhanced_data["enhanced_jd"]["original_text"]` and returns.  On an exception
whose `str(e)` contains `"bool_parsing"` it invokes the `async` repair method
`_process_enhancement_with_bool_fix` WITHOUT `await`: in Python that merely
builds a coroutine object — the repair body (and with it the second requester
call, `call2`) never executes — and that object is returned as the result.
Consequently the inner `except` around the repair call is dead code, and every
other exception is re-raised as
`Exception("Error enhancing job description: " + str(e))`. -/

/-- Body of `_process_enhancement_with_bool_fix` — what the repair coroutine
would compute if it were ever awaited.  `call2` is the outcome of the second
requester call (the boolean-emphasis prompt pair). -/
def process_enhancement_with_bool_fix (call2 : Except PyError PyVal)
    (extracted_jd : PyVal) : Except PyError PyVal :=
  match call2 with
  | .error e => .error e
  | .ok enhanced_data =>
      match extracted_jd.lookup "original_text" with
      | some t => .ok (enhanced_data.setPath "enhanced_jd" "original_text" t)
      | Option.none => .ok enhanced_data

def enhance_job_description (call1 _call2 : Except PyError PyVal)
    (extracted_jd : PyVal) : Except PyError PyVal :=
  match call1 with
  | .ok enhanced_data =>
      match extracted_jd.lookup "original_text" with
      | some t => .ok (enhanced_data.setPath "enhanced_jd" "original_text" t)
      | Option.none => .ok enhanced_data
  | .error e =>
      if containsSubstr e.msg "bool_parsing" then
        -- Source line 57: `enhanced_data = self._process_enhancement_with_bool_fix(extracted_jd)`
        -- with no `await`: the coroutine object itself is returned; `call2` is never consulted.
        .ok (PyVal.coroutine "_process_enhancement_with_bool_fix")
      else
        .error ⟨"Exception", "Error enhancing job description: " ++ e.msg⟩

/-! ## Enhance endpoint (`api/enhancement.py`, route handler `enhance_job_description`)

Inside one `try` block the handler raises `HTTPException(400, ...)` when the
body is empty or lacks the `"extracted_jd"` key, otherwise awaits the
enhancer.  The trailing `except Exception` catches BOTH the enhancer's
exceptions and that `HTTPException(400)` (FastAPI's `HTTPException` subclasses
`Exception`) and re-raises `HTTPException(500, "Error enhancing job description: " + str(e))`.
Starlette renders `str(HTTPException)` as `"<status>: <detail>"`. -/

inductive EndpointRaise where
  | http (status_code : Nat) (detail : String)
  | plain (e : PyError)

def strOfRaise : EndpointRaise → String
  | .http sc d => toString sc ++ ": " ++ d
  | .plain e => e.msg

structure HTTPErrorResponse where
  status_code : Nat
  detail : String

def api_enhance_job_description (call1 call2 : Except PyError PyVal)
    (jd_data : PyVal) : Except HTTPErrorResponse PyVal :=
  let body : Except EndpointRaise PyVal :=
    if jd_data.falsy ∨ (jd_data.lookup "extracted_jd").isNone then
      .error (.http 400 "Invalid input. Expected a dictionary with \x27extracted_jd\x27 key.")
    else
      match enhance_job_description call1 call2 ((jd_data.lookup "extracted_jd").getD PyVal.none) with
      | .ok v => .ok v
      | .error e => .error (.plain e)
  match body with
  | .ok v => .ok v
  | .error ex => .error ⟨500, "Error enhancing job description: " ++ strOfRaise ex⟩

/-- Value at a key path inside nested dicts. -/
def PyVal.getAt (d : PyVal) : List String → Option PyVal
  | [] => some d
  | k :: ks =>
      match d.lookup k with
      | some x => x.getAt ks
      | Option.none => Option.none

/-- The filename-extension allow-list of `parse_file`, as the spec states it:
pdf, docx, png, jpg, jpeg, gif (case-insensitively, on the filename suffix). -/
def allowedExtension (filename : String) : Bool :=
  strEndsWith (lowerStr filename) ".pdf" || strEndsWith (lowerStr filename) ".docx" ||
  strEndsWith (lowerStr filename) ".png" || strEndsWith (lowerStr filename) ".jpg" ||
  strEndsWith (lowerStr filename) ".jpeg" || strEndsWith (lowerStr filename) ".gif"

/-! ## Sample data for concrete scenarios -/

/-- A validated enhancement response whose `original_text` the model filled
with its own value, used to exercise the copy-forward paths. -/
def sampleEnhancement : JobDescriptionEnhancementResponse :=
  ⟨⟨⟨"Senior Backend Engineer", Option.none, Option.none, Option.none, Option.none⟩,
    JobPostingMetadata.default,
    ⟨"An elaborate summary.", [], [], Option.none, []⟩, RequirementsBreakdown.default,
    SkillsClassification.default, CompensationDetails.default, WorkEnvironment.default,
    CareerPathInfo.default, some "model-invented text"⟩, "Job description enhanced successfully"⟩

/-- A minimal model reply for the extraction schema: only the two required
leaf fields are provided; every other field falls back to its default. -/
def replyMinimal : PyVal :=
  PyVal.dict [("extracted_jd", PyVal.dict
    [("basic_info", PyVal.dict [("job_title", PyVal.str "Senior Backend Engineer")]),
     ("role_description", PyVal.dict [("job_summary", PyVal.str "Owns the backend.")])])]

/-- What `replyMinimal` validates to. -/
def parsedMinimal : JobDescriptionExtractionResponse :=
  ⟨⟨⟨"Senior Backend Engineer", Option.none, Option.none, Option.none, Option.none⟩,
    JobPostingMetadata.default,
    ⟨"Owns the backend.", [], [], Option.none, []⟩, RequirementsBreakdown.default,
    SkillsClassification.default, CompensationDetails.default, WorkEnvironment.default,
    CareerPathInfo.default, Option.none⟩, "Job description extracted successfully"⟩

/-- A reply identical in shape but with an empty `job_title`. -/
def replyEmptyTitle : PyVal :=
  PyVal.dict [("extracted_jd", PyVal.dict
    [("basic_info", PyVal.dict [("job_title", PyVal.str "")]),
     ("role_description", PyVal.dict [("job_summary", PyVal.str "Owns the backend.")])])]

/-- What `replyEmptyTitle` validates to. -/
def parsedEmptyTitle : JobDescriptionExtractionResponse :=
  ⟨⟨⟨"", Option.none, Option.none, Option.none, Option.none⟩,
    JobPostingMetadata.default,
    ⟨"Owns the backend.", [], [], Option.none, []⟩, RequirementsBreakdown.default,
    SkillsClassification.default, CompensationDetails.default, WorkEnvironment.default,
    CareerPathInfo.default, Option.none⟩, "Job description extracted successfully"⟩

/-- The message a boolean-coercion `ValidationError` renders to once
`extract_with_schema` has wrapped it; what matters downstream is that it
contains the substring `bool_parsing`. -/
def boolParsingMsg : String :=
  "GPT extraction failed: 1 validation error for JobDescriptionEnhancementResponse\nenhanced_jd.compensation.relocation_assistance\n  Input should be a valid boolean, unable to interpret input [type=bool_parsing, input_value=Yes with company support, input_type=str]"

/-! ## Helper lemmas -/

lemma getAt_set_original_text_enh (r : JobDescriptionEnhancementResponse) (t : PyVal) :
    (r.model_dump.setPath "enhanced_jd" "original_text" t).getAt ["enhanced_jd", "original_text"] =
      some t := rfl

lemma getAt_set_original_text_ext (r : JobDescriptionExtractionResponse) (t : PyVal) :
    (r.model_dump.setPath "extracted_jd" "original_text" t).getAt ["extracted_jd", "original_text"] =
      some t := rfl

lemma bind_ok {α β : Type} {x : Except String α} {f : α → Except String β} {b : β}
    (h : x >>= f = Except.ok b) : ∃ a, x = Except.ok a ∧ f a = Except.ok b := by
  cases x with
  | error e => exact absurd h (by simp [Bind.bind, Except.bind])
  | ok a => exact ⟨a, rfl, h⟩

lemma requiredF_ok {α : Type} {fs : List (String × PyVal)} {name : String}
    {val : PyVal → Except String α} {a : α} (h : requiredF fs name val = Except.ok a) :
    ∃ x, fs.lookup name = some x ∧ val x = Except.ok a := by
  unfold requiredF at h
  cases hx : fs.lookup name with
  | none => rw [hx] at h; exact Except.noConfusion h
  | some x => rw [hx] at h; exact ⟨x, rfl, h⟩

lemma validateStr_ok {field : String} {v : PyVal} {s : String}
    (h : validateStr field v = Except.ok s) : v = PyVal.str s := by
  cases v <;> simp_all [validateStr]

lemma basicJobInfo_validate_ok {v : PyVal} {bi : BasicJobInfo}
    (h : BasicJobInfo.validate v = Except.ok bi) :
    ∃ fs, v = PyVal.dict fs ∧ fs.lookup "job_title" = some (PyVal.str bi.job_title) := by
  cases v with
  | dict fs =>
      simp only [BasicJobInfo.validate] at h
      obtain ⟨jt, hjt, h⟩ := bind_ok h
      obtain ⟨jc, hjc, h⟩ := bind_ok h
      obtain ⟨jl, hjl, h⟩ := bind_ok h
      obtain ⟨dep, hdep, h⟩ := bind_ok h
      obtain ⟨cat, hcat, h⟩ := bind_ok h
      obtain ⟨x, hx, hval⟩ := requiredF_ok hjt
      cases Except.ok.inj h
      exact ⟨fs, rfl, by rw [hx, validateStr_ok hval]⟩
  | none => exact absurd h (by simp [BasicJobInfo.validate])
  | bool b => exact absurd h (by simp [BasicJobInfo.validate])
  | int n => exact absurd h (by simp [BasicJobInfo.validate])
  | str s => exact absurd h (by simp [BasicJobInfo.validate])
  | list xs => exact absurd h (by simp [BasicJobInfo.validate])
  | coroutine f => exact absurd h (by simp [BasicJobInfo.validate])

lemma roleDescription_validate_ok {v : PyVal} {rd : DetailedRoleDescription}
    (h : DetailedRoleDescription.validate v = Except.ok rd) :
    ∃ fs, v = PyVal.dict fs ∧ fs.lookup "job_summary" = some (PyVal.str rd.job_summary) := by
  cases v with
  | dict fs =>
      simp only [DetailedRoleDescription.validate] at h
      obtain ⟨js, hjs, h⟩ := bind_ok h
      obtain ⟨dt, hdt, h⟩ := bind_ok h
      obtain ⟨pi, hpi, h⟩ := bind_ok h
      obtain ⟨dm, hdm, h⟩ := bind_ok h
      obtain ⟨si, hsi, h⟩ := bind_ok h
      obtain ⟨x, hx, hval⟩ := requiredF_ok hjs
      cases Except.ok.inj h
      exact ⟨fs, rfl, by rw [hx, validateStr_ok hval]⟩
  | none => exact absurd h (by simp [DetailedRoleDescription.validate])
  | bool b => exact absurd h (by simp [DetailedRoleDescription.validate])
  | int n => exact absurd h (by simp [DetailedRoleDescription.validate])
  | str s => exact absurd h (by simp [DetailedRoleDescription.validate])
  | list xs => exact absurd h (by simp [DetailedRoleDescription.validate])
  | coroutine f => exact absurd h (by simp [DetailedRoleDescription.validate])

lemma jdSchema_validate_ok {v : PyVal} {jd : JobDescriptionSchema}
    (h : JobDescriptionSchema.validate v = Except.ok jd) :
    ∃ fs bv rv, v = PyVal.dict fs ∧
      fs.lookup "basic_info" = some bv ∧ BasicJobInfo.validate bv = Except.ok jd.basic_info ∧
      fs.lookup "role_description" = some rv ∧
      DetailedRoleDescription.validate rv = Except.ok jd.role_description := by
  cases v with
  | dict fs =>
      simp only [JobDescriptionSchema.validate] at h
      obtain ⟨bi, hbi, h⟩ := bind_ok h
      obtain ⟨pm, hpm, h⟩ := bind_ok h
      obtain ⟨rd, hrd, h⟩ := bind_ok h
      obtain ⟨rq, hrq, h⟩ := bind_ok h
      obtain ⟨sk, hsk, h⟩ := bind_ok h
      obtain ⟨cp, hcp, h⟩ := bind_ok h
      obtain ⟨we, hwe, h⟩ := bind_ok h
      obtain ⟨ca, hca, h⟩ := bind_ok h
      obtain ⟨ot, hot, h⟩ := bind_ok h
      obtain ⟨bv, hbv, hbval⟩ := requiredF_ok hbi
      obtain ⟨rv, hrv, hrval⟩ := requiredF_ok hrd
      cases Except.ok.inj h
      exact ⟨fs, bv, rv, rfl, hbv, hbval, hrv, hrval⟩
  | none => exact absurd h (by simp [JobDescriptionSchema.validate])
  | bool b => exact absurd h (by simp [JobDescriptionSchema.validate])
  | int n => exact absurd h (by simp [JobDescriptionSchema.validate])
  | str s => exact absurd h (by simp [JobDescriptionSchema.validate])
  | list xs => exact absurd h (by simp [JobDescriptionSchema.validate])
  | coroutine f => exact absurd h (by simp [JobDescriptionSchema.validate])

lemma extractionResponse_validate_ok {v : PyVal}
    {r : JobDescriptionExtractionResponse}
    (h : JobDescriptionExtractionResponse.validate v = Except.ok r) :
    ∃ fs jv, v = PyVal.dict fs ∧ fs.lookup "extracted_jd" = some jv ∧
      JobDescriptionSchema.validate jv = Except.ok r.extracted_jd := by
  cases v with
  | dict fs =>
      simp only [JobDescriptionExtractionResponse.validate] at h
      obtain ⟨jd, hjd, h⟩ := bind_ok h
      obtain ⟨ms, hms, h⟩ := bind_ok h
      obtain ⟨jv, hjv, hjval⟩ := requiredF_ok hjd
      cases Except.ok.inj h
      exact ⟨fs, jv, rfl, hjv, hjval⟩
  | none => exact absurd h (by simp [JobDescriptionExtractionResponse.validate])
  | bool b => exact absurd h (by simp [JobDescriptionExtractionResponse.validate])
  | int n => exact absurd h (by simp [JobDescriptionExtractionResponse.validate])
  | str s => exact absurd h (by simp [JobDescriptionExtractionResponse.validate])
  | list xs => exact absurd h (by simp [JobDescriptionExtractionResponse.validate])
  | coroutine f => exact absurd h (by simp [JobDescriptionExtractionResponse.validate])

/-! ## Claim theorems -/

/-- C1: for every input mapping carrying an `original_text` value `t`, a run of
the Enhancement Orchestrator whose requester call succeeds yields a result
whose `enhanced_jd.original_text` is exactly `t`, byte for byte, regardless of
what the model returned for that field (the model's value, including
`resp.enhanced_jd.original_text`, is arbitrary here). -/
theorem enhance_roundtrip_preserves_original_text
    (resp : JobDescriptionEnhancementResponse) (call2 : Except PyError PyVal)
    (jd t : PyVal) (h : jd.lookup "original_text" = some t) :
    ∃ out, enhance_job_description (Except.ok resp.model_dump) call2 jd = Except.ok out ∧
      out.getAt ["enhanced_jd", "original_text"] = some t := by
  refine ⟨resp.model_dump.setPath "enhanced_jd" "original_text" t, ?_,
    getAt_set_original_text_enh resp t⟩
  simp [enhance_job_description, h]

/-- C1 witness: the round trip at a concrete input text. -/
theorem enhance_roundtrip_preserves_original_text_witness :
    ∃ out, enhance_job_description (Except.ok sampleEnhancement.model_dump)
        (Except.error ⟨"Exception", "unused"⟩)
        (PyVal.dict [("original_text", PyVal.str "the raw document text")]) = Except.ok out ∧
      out.getAt ["enhanced_jd", "original_text"] = some (PyVal.str "the raw document text") :=
  enhance_roundtrip_preserves_original_text sampleEnhancement _ _ _ rfl

/-- C2: in the boolean-repair scenario (first requester call raises a
boolean-coercion validation error, second call would succeed) the orchestrator
does NOT return the second call's result: the repair method is invoked without
`await`, so the un-awaited coroutine object itself is returned.  The third
conjunct shows what the repair body would have produced had it been awaited —
the second call's result with `original_text` preserved, as the claim states. -/
theorem bool_repair_returns_unawaited_coroutine :
    enhance_job_description (Except.error ⟨"Exception", boolParsingMsg⟩)
        (Except.ok sampleEnhancement.model_dump)
        (PyVal.dict [("original_text", PyVal.str "raw text")]) =
      Except.ok (PyVal.coroutine "_process_enhancement_with_bool_fix") ∧
    (Except.ok (PyVal.coroutine "_process_enhancement_with_bool_fix") : Except PyError PyVal) ≠
      Except.ok (sampleEnhancement.model_dump.setPath "enhanced_jd" "original_text"
        (PyVal.str "raw text")) ∧
    process_enhancement_with_bool_fix (Except.ok sampleEnhancement.model_dump)
        (PyVal.dict [("original_text", PyVal.str "raw text")]) =
      Except.ok (sampleEnhancement.model_dump.setPath "enhanced_jd" "original_text"
        (PyVal.str "raw text")) := by
  refine ⟨rfl, ?_, rfl⟩
  intro hcontra
  exact PyVal.noConfusion (Except.ok.inj hcontra)

/-- C3: in the boolean-repair exhaustion scenario (the requester would fail
with the same boolean-coercion error on both calls) no `EnhancementFailedError`
— indeed no exception at all — is raised: whatever the second call's outcome
(`call2` below is universally quantified, covering the failing case), the
orchestrator returns the un-awaited coroutine object as a success. -/
theorem bool_repair_exhaustion_raises_nothing :
    ∀ call2 : Except PyError PyVal,
      enhance_job_description (Except.error ⟨"Exception", boolParsingMsg⟩) call2
          (PyVal.dict [("original_text", PyVal.str "source doc")]) =
        Except.ok (PyVal.coroutine "_process_enhancement_with_bool_fix") :=
  fun _ => rfl

/-- C4 counterexample: a first-call error that is NOT a schema-validation
error (a transport failure, class `ModelRequestError`) whose message happens
to contain the substring `bool_parsing` does not propagate to the caller —
the repair branch is taken, refuting "every other error class ... propagates
to the caller immediately without any repair attempt". -/
theorem repair_branch_taken_on_transport_error :
    enhance_job_description
        (Except.error ⟨"ModelRequestError",
          "Connection error while streaming the completion; partial body: type=bool_parsing"⟩)
        (Except.ok PyVal.none) (PyVal.dict []) =
      Except.ok (PyVal.coroutine "_process_enhancement_with_bool_fix") := rfl

/-- C4 amended: the repair branch is entered — equivalently, the first call's
error is suppressed and a success is returned — if and only if the stringified
error contains the substring `bool_parsing`, regardless of the error's class;
all other errors are re-raised (wrapped) immediately. -/
theorem enhance_error_suppressed_iff_bool_parsing
    (e : PyError) (call2 : Except PyError PyVal) (jd : PyVal) :
    (∃ v, enhance_job_description (Except.error e) call2 jd = Except.ok v) ↔
      containsSubstr e.msg "bool_parsing" = true := by
  cases hb : containsSubstr e.msg "bool_parsing" with
  | false => simp [enhance_job_description, hb]
  | true => simp [enhance_job_description, hb]

/-- C5 counterexample: a reply that omits `compensation` entirely passes an
extraction pass, and the produced JobPosting carries `None` — JSON `null` —
in both `compensation.relocation_assistance` and `compensation.visa_sponsorship`,
refuting "never null" (the schema declares them `Optional[bool] = None`). -/
theorem compensation_flags_null_counterexample :
    extract_with_schema_extraction (ModelReply.reply replyMinimal) =
      Except.ok parsedMinimal.model_dump ∧
    parsedMinimal.model_dump.getAt ["extracted_jd", "compensation", "relocation_assistance"] =
      some PyVal.none ∧
    parsedMinimal.model_dump.getAt ["extracted_jd", "compensation", "visa_sponsorship"] =
      some PyVal.none := ⟨rfl, rfl, rfl⟩

/-- C5 amended: in every JobPosting produced by a successful extraction or
enhancement pass, `compensation.relocation_assistance` and
`compensation.visa_sponsorship` are strict booleans or null — never strings
(a string such as "true" in the reply is coerced to a boolean by validation;
an uncoercible value fails the pass). -/
theorem compensation_flags_bool_or_null
    (j out : PyVal) (field : String)
    (hf : field = "relocation_assistance" ∨ field = "visa_sponsorship") :
    (extract_with_schema_extraction (ModelReply.reply j) = Except.ok out →
      ∀ v, out.getAt ["extracted_jd", "compensation", field] = some v →
        v = PyVal.none ∨ ∃ b, v = PyVal.bool b) ∧
    (extract_with_schema_enhancement (ModelReply.reply j) = Except.ok out →
      ∀ v, out.getAt ["enhanced_jd", "compensation", field] = some v →
        v = PyVal.none ∨ ∃ b, v = PyVal.bool b) := by
  have hredE : extract_with_schema_extraction (ModelReply.reply j) =
      (match JobDescriptionExtractionResponse.validate j with
       | Except.ok r => Except.ok r.model_dump
       | Except.error ve => Except.error ⟨"Exception", "GPT extraction failed: " ++ ve⟩) := rfl
  have hredN : extract_with_schema_enhancement (ModelReply.reply j) =
      (match JobDescriptionEnhancementResponse.validate j with
       | Except.ok r => Except.ok r.model_dump
       | Except.error ve => Except.error ⟨"Exception", "GPT extraction failed: " ++ ve⟩) := rfl
  constructor
  · intro hok v hv
    rw [hredE] at hok
    cases hval : JobDescriptionExtractionResponse.validate j with
    | error e => rw [hval] at hok; simp at hok
    | ok r =>
        rw [hval] at hok
        obtain rfl : r.model_dump = out := Except.ok.inj hok
        rcases hf with rfl | rfl
        · have hsome : some (dumpOptBool r.extracted_jd.compensation.relocation_assistance)
              = some v := hv
          cases Option.some.inj hsome
          cases hX : r.extracted_jd.compensation.relocation_assistance with
          | none => left; rfl
          | some b => right; exact ⟨b, rfl⟩
        · have hsome : some (dumpOptBool r.extracted_jd.compensation.visa_sponsorship)
              = some v := hv
          cases Option.some.inj hsome
          cases hX : r.extracted_jd.compensation.visa_sponsorship with
          | none => left; rfl
          | some b => right; exact ⟨b, rfl⟩
  · intro hok v hv
    rw [hredN] at hok
    cases hval : JobDescriptionEnhancementResponse.validate j with
    | error e => rw [hval] at hok; simp at hok
    | ok r =>
        rw [hval] at hok
        obtain rfl : r.model_dump = out := Except.ok.inj hok
        rcases hf with rfl | rfl
        · have hsome : some (dumpOptBool r.enhanced_jd.compensation.relocation_assistance)
              = some v := hv
          cases Option.some.inj hsome
          cases hX : r.enhanced_jd.compensation.relocation_assistance with
          | none => left; rfl
          | some b => right; exact ⟨b, rfl⟩
        · have hsome : some (dumpOptBool r.enhanced_jd.compensation.visa_sponsorship)
              = some v := hv
          cases Option.some.inj hsome
          cases hX : r.enhanced_jd.compensation.visa_sponsorship with
          | none => left; rfl
          | some b => right; exact ⟨b, rfl⟩

/-- C5 amended witness: the amended fact at the concrete minimal pass. -/
theorem compensation_flags_bool_or_null_witness :
    extract_with_schema_extraction (ModelReply.reply replyMinimal) =
      Except.ok parsedMinimal.model_dump ∧
    (PyVal.none = PyVal.none ∨ ∃ b, PyVal.none = PyVal.bool b) :=
  ⟨rfl, (compensation_flags_bool_or_null replyMinimal parsedMinimal.model_dump
      "relocation_assistance" (Or.inl rfl)).1 rfl PyVal.none rfl⟩

/-- C6 counterexample: a reply whose `basic_info.job_title` is the empty
string passes extraction's schema validation, refuting "non-empty": the
schema requires presence and string type but never a minimum length. -/
theorem empty_job_title_passes_validation :
    JobDescriptionExtractionResponse.validate replyEmptyTitle = Except.ok parsedEmptyTitle ∧
    parsedEmptyTitle.extracted_jd.basic_info.job_title = "" := ⟨rfl, rfl⟩

/-- C6 amended: in every reply that passes extraction's schema validation,
`basic_info.job_title` and `role_description.job_summary` are present with
string values (possibly empty), carried unchanged into the validated
JobPosting. -/
theorem job_title_and_summary_present_strings
    (j : PyVal) (r : JobDescriptionExtractionResponse)
    (h : JobDescriptionExtractionResponse.validate j = Except.ok r) :
    j.getAt ["extracted_jd", "basic_info", "job_title"] =
        some (PyVal.str r.extracted_jd.basic_info.job_title) ∧
    j.getAt ["extracted_jd", "role_description", "job_summary"] =
        some (PyVal.str r.extracted_jd.role_description.job_summary) := by
  obtain ⟨fs, jv, rfl, hjv, hjval⟩ := extractionResponse_validate_ok h
  obtain ⟨fs2, bv, rv, rfl, hbv, hbval, hrv, hrval⟩ := jdSchema_validate_ok hjval
  obtain ⟨fs3, rfl, hjt⟩ := basicJobInfo_validate_ok hbval
  obtain ⟨fs4, rfl, hjs⟩ := roleDescription_validate_ok hrval
  constructor
  · simp [PyVal.getAt, PyVal.lookup, hjv, hbv, hjt]
  · simp [PyVal.getAt, PyVal.lookup, hjv, hrv, hjs]

/-- C6 amended witness: the amended fact at the concrete minimal reply. -/
theorem job_title_and_summary_present_strings_witness :
    replyMinimal.getAt ["extracted_jd", "basic_info", "job_title"] =
        some (PyVal.str parsedMinimal.extracted_jd.basic_info.job_title) ∧
    replyMinimal.getAt ["extracted_jd", "role_description", "job_summary"] =
        some (PyVal.str parsedMinimal.extracted_jd.role_description.job_summary) :=
  job_title_and_summary_present_strings replyMinimal parsedMinimal rfl

/-- C7: for every filename whose extension is outside the allow-list
(pdf, docx, png, jpg, jpeg, gif), `parse_file` fails with the
unsupported-format `ValueError` — the spec's `UnsupportedFormatError` — and
the Extraction Orchestrator aborts having made zero requester calls. -/
theorem unsupported_extension_rejected_before_model_call
    (pdfRead docxRead imageRead : Except PyError String) (reply : ModelReply)
    (filename : String) (h : allowedExtension filename = false) :
    parse_file pdfRead docxRead imageRead filename =
      Except.error ⟨"ValueError",
        "Unsupported file format. Only PDF, DOCX, and image formats are supported."⟩ ∧
    extract_job_description pdfRead docxRead imageRead reply filename =
      (Except.error ⟨"Exception",
        "Error extracting job description: Unsupported file format. Only PDF, DOCX, and image formats are supported."⟩, 0) := by
  simp only [allowedExtension, Bool.or_eq_false_iff] at h
  obtain ⟨⟨⟨⟨⟨h1, h2⟩, h3⟩, h4⟩, h5⟩, h6⟩ := h
  have hp : parse_file pdfRead docxRead imageRead filename =
      Except.error ⟨"ValueError",
        "Unsupported file format. Only PDF, DOCX, and image formats are supported."⟩ := by
    simp [parse_file, h1, h2, h3, h4, h5, h6]
  refine ⟨hp, ?_⟩
  unfold extract_job_description
  rw [hp]
  rfl

/-- C7 witness: the upload named "resume.txt" from the spec's scenario. -/
theorem unsupported_extension_rejected_before_model_call_witness :
    allowedExtension "resume.txt" = false ∧
    extract_job_description (Except.ok "pdf text") (Except.ok "docx text")
        (Except.ok "image text") (ModelReply.reply replyMinimal) "resume.txt" =
      (Except.error ⟨"Exception",
        "Error extracting job description: Unsupported file format. Only PDF, DOCX, and image formats are supported."⟩, 0) :=
  ⟨by decide, (unsupported_extension_rejected_before_model_call (Except.ok "pdf text")
      (Except.ok "docx text") (Except.ok "image text") (ModelReply.reply replyMinimal)
      "resume.txt" (by decide)).2⟩

/-- C8: after a successful parse producing text `t` and a successful requester
result, the Extraction Orchestrator returns the validated result with
`extracted_jd.original_text` set to exactly `t` (whatever the model produced
there, including `resp.extracted_jd.original_text`, is overwritten), having
made exactly one requester call. -/
theorem extract_attaches_original_text
    (pdfRead docxRead imageRead : Except PyError String) (filename t : String)
    (j : PyVal) (resp : JobDescriptionExtractionResponse)
    (hparse : parse_file pdfRead docxRead imageRead filename = Except.ok t)
    (hvalid : JobDescriptionExtractionResponse.validate j = Except.ok resp) :
    extract_job_description pdfRead docxRead imageRead (ModelReply.reply j) filename =
      (Except.ok (resp.model_dump.setPath "extracted_jd" "original_text" (PyVal.str t)), 1) ∧
    (resp.model_dump.setPath "extracted_jd" "original_text" (PyVal.str t)).getAt
        ["extracted_jd", "original_text"] = some (PyVal.str t) := by
  constructor
  · have hred : extract_with_schema_extraction (ModelReply.reply j) =
        (match JobDescriptionExtractionResponse.validate j with
         | Except.ok r => Except.ok r.model_dump
         | Except.error ve => Except.error ⟨"Exception", "GPT extraction failed: " ++ ve⟩) := rfl
    unfold extract_job_description
    rw [hparse, hred, hvalid]
  · exact getAt_set_original_text_ext resp (PyVal.str t)

/-- C8 witness: a concrete PDF parse and a concrete model reply. -/
theorem extract_attaches_original_text_witness :
    extract_job_description (Except.ok "Senior Backend Engineer at Acme Corp. Remote.")
        (Except.ok "unused docx") (Except.ok "unused image")
        (ModelReply.reply replyMinimal) "jd.pdf" =
      (Except.ok (parsedMinimal.model_dump.setPath "extracted_jd" "original_text"
        (PyVal.str "Senior Backend Engineer at Acme Corp. Remote.")), 1) ∧
    (parsedMinimal.model_dump.setPath "extracted_jd" "original_text"
        (PyVal.str "Senior Backend Engineer at Acme Corp. Remote.")).getAt
        ["extracted_jd", "original_text"] =
      some (PyVal.str "Senior Backend Engineer at Acme Corp. Remote.") :=
  extract_attaches_original_text (Except.ok "Senior Backend Engineer at Acme Corp. Remote.")
    (Except.ok "unused docx") (Except.ok "unused image") "jd.pdf"
    "Senior Backend Engineer at Acme Corp. Remote." replyMinimal parsedMinimal rfl rfl

/-- C9: a request body that is empty, or lacks the key "extracted_jd", is
answered with status 500, not the claimed 400: the handler raises
`HTTPException(400, ...)` inside its own `try`, and the blanket
`except Exception` converts it into the generic 500 response. -/
theorem enhance_endpoint_missing_key_returns_500 :
    api_enhance_job_description (Except.error ⟨"Exception", "unused first call"⟩)
        (Except.error ⟨"Exception", "unused second call"⟩) (PyVal.dict []) =
      Except.error ⟨500,
        "Error enhancing job description: 400: Invalid input. Expected a dictionary with \x27extracted_jd\x27 key."⟩ ∧
    api_enhance_job_description (Except.error ⟨"Exception", "unused first call"⟩)
        (Except.error ⟨"Exception", "unused second call"⟩)
        (PyVal.dict [("some_other_key", PyVal.str "x")]) =
      Except.error ⟨500,
        "Error enhancing job description: 400: Invalid input. Expected a dictionary with \x27extracted_jd\x27 key."⟩ :=
  ⟨rfl, rfl⟩

/-- C10: when the input mapping has no "original_text" key at all, the
successful requester result is returned unmodified — in particular the
model's own `enhanced_jd.original_text` value survives, as the second
conjunct of the witness shows. -/
theorem enhance_without_original_text_returns_model_value
    (d : PyVal) (call2 : Except PyError PyVal) (jd : PyVal)
    (h : jd.lookup "original_text" = Option.none) :
    enhance_job_description (Except.ok d) call2 jd = Except.ok d := by
  simp [enhance_job_description, h]

/-- C10 witness: a concrete input without the key; the model's
`original_text` value is returned untouched. -/
theorem enhance_without_original_text_returns_model_value_witness :
    enhance_job_description (Except.ok sampleEnhancement.model_dump)
        (Except.error ⟨"Exception", "unused"⟩)
        (PyVal.dict [("basic_info", PyVal.dict [])]) =
      Except.ok sampleEnhancement.model_dump ∧
    sampleEnhancement.model_dump.getAt ["enhanced_jd", "original_text"] =
      some (PyVal.str "model-invented text") :=
  ⟨enhance_without_original_text_returns_model_value sampleEnhancement.model_dump
    (Except.error ⟨"Exception", "unused"⟩) (PyVal.dict [("basic_info", PyVal.dict [])]) rfl, rfl⟩
